import Mathlib

/-!
Shallow embedding of the `timeManagement` Go package.

Modelling conventions:
* Instants and durations are rational numbers of nanoseconds (`ℚ`).
  Go's `float64` time scale is modelled as an exact rational and the
  `time.Duration(float64(d) * scale)` conversions as exact rational
  multiplication, abstracting from float64 rounding and int64 truncation.
* A Go `time.Time` is a pair of an absolute instant and a zone tag
  (`GoTime`); `UTC()` changes only the tag, `Add`/`Sub` ignore it,
  exactly as in Go.
* Every stateful operation of `realTimeProvider` (timeManagement.go) is a
  pure function of the provider state and the current wall-clock reading
  `w` (the value `time.Now()` would return at that moment).  `panic` is
  modelled as `Except.error`.
* The remote path (serverTime.go) is a pure function of an HTTP oracle
  `HttpEnv` mapping a URL to a transport error or a response; the JSON
  body and the RFC3339Nano timestamp are modelled structurally (a body is
  either malformed, or decodes to a timestamp string that either fails or
  succeeds RFC3339Nano parsing with a clock-face reading and a zone
  suffix).  `getServerTime` also returns the list of requests it issued,
  and the package-level `Now` returns the list of log lines it printed.
-/

namespace TimeManagement

/-- Zone tag carried by a Go `time.Time` value: `time.UTC`, the process
local zone (`time.Local`, what `time.Now()` carries), or a fixed-offset
zone with the given offset in seconds (what `time.Parse` attaches to an
RFC3339 timestamp with a non-zero numeric offset). -/
inductive TZ where
  | utc : TZ
  | localZone : TZ
  | fixed (offsetSec : ℤ) : TZ
deriving DecidableEq, Repr

/-- A Go `time.Time`: an absolute instant (nanoseconds, exact) plus the
zone tag used for presentation.  `Sub` and `Add` act on the instant only,
`UTC()` only rewrites the tag, as in Go. -/
structure GoTime where
  instant : ℚ
  zone : TZ
deriving DecidableEq, Repr

/-- Go `t.UTC()`: same instant, zone tag set to UTC. -/
def GoTime.toUTC (t : GoTime) : GoTime := ⟨t.instant, TZ.utc⟩

/-- Go `t.Add(d)`: shifts the instant, keeps the zone tag (as Go does). -/
def GoTime.add (t : GoTime) (d : ℚ) : GoTime := ⟨t.instant + d, t.zone⟩

/-- Go `t.Sub(u)`: difference of instants, a duration. -/
def GoTime.sub (t u : GoTime) : ℚ := t.instant - u.instant

/-- Model of `time.Now()` at wall reading `w`: carries the local zone tag. -/
def timeNow (w : ℚ) : GoTime := ⟨w, TZ.localZone⟩

/-- Model of `time.Since(t)` evaluated at wall reading `w`: `time.Now().Sub(t)`. -/
def timeSince (w : ℚ) (t : GoTime) : ℚ := (timeNow w).sub t

/-- The zero `time.Time` (Go's zero value has a nil location, treated as
UTC). -/
def goZeroTime : GoTime := ⟨0, TZ.utc⟩

/-- State of `realTimeProvider` (timeManagement.go lines 75-83).  The
`sync.RWMutex` is dropped: every operation is modelled as an atomic pure
function of the state. -/
structure RealTimeProvider where
  mockTime : Option GoTime
  mockStartTime : GoTime
  mockBaseTime : GoTime
  timeScale : ℚ
  baseTime : GoTime
  scaleStart : GoTime
deriving DecidableEq, Repr

/-- The singleton created by `GetProvider` (timeManagement.go lines
91-98): `timeScale = 1.0`, every other field at its zero value. -/
def initialProvider : RealTimeProvider :=
  { mockTime := none
    mockStartTime := goZeroTime
    mockBaseTime := goZeroTime
    timeScale := 1
    baseTime := goZeroTime
    scaleStart := goZeroTime }

/-- Go `realTimeProvider.Now` (timeManagement.go lines 100-120), evaluated at
wall reading `w`. -/
def RealTimeProvider.Now (r : RealTimeProvider) (w : ℚ) : GoTime :=
  match r.mockTime with
  | some _ =>
      let elapsed := timeSince w r.mockStartTime
      let elapsed := if r.timeScale ≠ 1 then elapsed * r.timeScale else elapsed
      (r.mockBaseTime.add elapsed).toUTC
  | none =>
      if r.timeScale ≠ 1 then
        let realElapsed := timeSince w r.scaleStart
        let scaledElapsed := realElapsed * r.timeScale
        (r.baseTime.add scaledElapsed).toUTC
      else
        (timeNow w).toUTC

/-- Go `realTimeProvider.Since` (lines 126-128). -/
def RealTimeProvider.Since (r : RealTimeProvider) (w : ℚ) (t : GoTime) : ℚ :=
  (r.Now w).sub t.toUTC

/-- Go `realTimeProvider.Until` (lines 130-132). -/
def RealTimeProvider.Until (r : RealTimeProvider) (w : ℚ) (t : GoTime) : ℚ :=
  t.toUTC.sub (r.Now w)

/-- Go `realTimeProvider.After` (lines 143-149): the amount of real time
after which the returned channel fires (`time.After`'s delay argument). -/
def RealTimeProvider.After (r : RealTimeProvider) (d : ℚ) : ℚ :=
  if r.timeScale ≠ 1 then d / r.timeScale else d

/-- Go `realTimeProvider.Sleep` (lines 134-141): the real time the call
blocks for. -/
def RealTimeProvider.Sleep (r : RealTimeProvider) (d : ℚ) : ℚ :=
  if r.timeScale ≠ 1 then d / r.timeScale else d

/-- Go `realTimeProvider.SetTimeScale` (lines 187-207) at wall reading `w`.
The `panic("Time scale must be positive")` is modelled as `Except.error`;
it happens before any assignment, so the error case carries no new
state. -/
def RealTimeProvider.SetTimeScale (r : RealTimeProvider) (scale : ℚ) (w : ℚ) :
    Except String RealTimeProvider :=
  if scale ≤ 0 then Except.error "Time scale must be positive"
  else
    let currentTime := r.Now w
    let r1 :=
      match r.mockTime with
      | some _ =>
          let elapsed := timeSince w r.mockStartTime
          { r with
              mockBaseTime := r.mockBaseTime.add elapsed
              mockStartTime := timeNow w }
      | none => r
    Except.ok
      { r1 with
          baseTime := currentTime
          scaleStart := (timeNow w).toUTC
          timeScale := scale }

/-- Go `realTimeProvider.GetTimeScale` (lines 209-213). -/
def RealTimeProvider.GetTimeScale (r : RealTimeProvider) : ℚ := r.timeScale

/-- Go `realTimeProvider.ClearTimeScale` (lines 215-217): `SetTimeScale(1.0)`. -/
def RealTimeProvider.ClearTimeScale (r : RealTimeProvider) (w : ℚ) :
    Except String RealTimeProvider :=
  r.SetTimeScale 1 w

/-- Go `realTimeProvider.SetMockTime` (lines 219-227) at wall reading `w`. -/
def RealTimeProvider.SetMockTime (r : RealTimeProvider) (t : GoTime) (w : ℚ) :
    RealTimeProvider :=
  let utcTime := t.toUTC
  { r with
      mockBaseTime := utcTime
      mockStartTime := timeNow w
      mockTime := some utcTime
      timeScale := 1 }

/-- Go `realTimeProvider.ClearMockTime` (lines 229-234). -/
def RealTimeProvider.ClearMockTime (r : RealTimeProvider) : RealTimeProvider :=
  { r with
      mockTime := none
      timeScale := 1 }

/-- One mutating call on the provider (at some wall reading). -/
inductive Step : RealTimeProvider → RealTimeProvider → Prop where
  | setTimeScale (r r' : RealTimeProvider) (s w : ℚ) :
      r.SetTimeScale s w = Except.ok r' → Step r r'
  | clearTimeScale (r r' : RealTimeProvider) (w : ℚ) :
      r.ClearTimeScale w = Except.ok r' → Step r r'
  | setMockTime (r : RealTimeProvider) (t : GoTime) (w : ℚ) :
      Step r (r.SetMockTime t w)
  | clearMockTime (r : RealTimeProvider) :
      Step r r.ClearMockTime

/-- Provider states reachable from the singleton's initial state by the
mutating operations. -/
inductive Reachable : RealTimeProvider → Prop where
  | init : Reachable initialProvider
  | step (r r' : RealTimeProvider) : Reachable r → Step r r' → Reachable r'

/-- Zone suffix of a (well-formed) RFC3339Nano timestamp string: a literal
`Z`, or a numeric offset of the given number of seconds. -/
inductive RFCZone where
  | z : RFCZone
  | offset (offsetSec : ℤ) : RFCZone
deriving DecidableEq, Repr

/-- A timestamp string accepted by `time.Parse(time.RFC3339Nano, ·)`:
the clock-face reading it spells out (nanoseconds) and its zone suffix. -/
structure RFC3339Stamp where
  reading : ℚ
  zone : RFCZone
deriving DecidableEq, Repr

/-- Offset in seconds denoted by a zone suffix (`Z` means 0). -/
def RFCZone.offsetSeconds : RFCZone → ℤ
  | RFCZone.z => 0
  | RFCZone.offset o => o

/-- Model of `time.Parse(time.RFC3339Nano, s)` on a well-formed stamp: the absolute
instant is the clock-face reading minus the offset; the zone tag is UTC
for `Z` (or a zero offset), and the fixed zone of the offset otherwise. -/
def parseRFC3339Nano (s : RFC3339Stamp) : GoTime :=
  let inst := s.reading - (s.zone.offsetSeconds : ℚ) * 1000000000
  match s.zone with
  | RFCZone.z => ⟨inst, TZ.utc⟩
  | RFCZone.offset o => if o = 0 then ⟨inst, TZ.utc⟩ else ⟨inst, TZ.fixed o⟩

/-- Result of running `json.NewDecoder(resp.Body).Decode(&timeResponse)`
followed by `time.Parse` on the `currentTime` field: the body is either
malformed JSON, or decodes to a `currentTime` string that either fails
RFC3339Nano parsing (`none`) or denotes the given stamp. -/
inductive JsonBody where
  | malformed : JsonBody
  | decoded (currentTime : Option RFC3339Stamp) : JsonBody
deriving DecidableEq, Repr

/-- An HTTP response as far as `getServerTime` inspects it. -/
structure HttpResponse where
  statusCode : ℕ
  status : String
  body : JsonBody
deriving DecidableEq, Repr

/-- The network: maps a request URL to a transport error or a response. -/
def HttpEnv := String → Except String HttpResponse

/-- The error returned by `getServerTime`, by cause. -/
inductive GoError where
  | network (msg : String) : GoError
  | protocol (status : String) : GoError
  | jsonDecode : GoError
  | timeParse : GoError
deriving DecidableEq, Repr

/-- Go `getServerTime` (serverTime.go lines 47-69).  Second component: the
list of HTTP requests issued. -/
def getServerTime (env : HttpEnv) (serverURL : String) :
    Except GoError GoTime × List String :=
  let url := serverURL ++ "/time"
  let result : Except GoError GoTime :=
    match env url with
    | Except.error e => Except.error (GoError.network e)
    | Except.ok resp =>
        if resp.statusCode ≠ 200 then
          Except.error (GoError.protocol resp.status)
        else
          match resp.body with
          | JsonBody.malformed => Except.error GoError.jsonDecode
          | JsonBody.decoded none => Except.error GoError.timeParse
          | JsonBody.decoded (some stamp) => Except.ok (parseRFC3339Nano stamp)
  (result, [url])

/-- The package-level configuration set by `SetUseServerTime`
(serverTime.go lines 11-28). -/
structure TimeSourceConfig where
  useServerTime : Bool
  serverURL : String
deriving DecidableEq, Repr

/-- Go `SetUseServerTime` (serverTime.go lines 23-28). -/
def SetUseServerTime (use : Bool) (url : String) : TimeSourceConfig :=
  ⟨use, url⟩

/-- The package-level `Now` (serverTime.go lines 31-44), evaluated at wall
reading `w` against the HTTP oracle `env`.  Second component: the list of
log lines printed. -/
def Now (cfg : TimeSourceConfig) (env : HttpEnv) (w : ℚ) :
    GoTime × List String :=
  if cfg.useServerTime then
    match (getServerTime env cfg.serverURL).1 with
    | Except.ok serverTime => (serverTime, [])
    | Except.error _ =>
        ((timeNow w).toUTC,
         ["Error getting server time, falling back to local UTC time"])
  else
    ((timeNow w).toUTC, [])


/-! Shared concrete states and environments used in the verification. -/

/-- Provider state after `SetMockTime(1000ns)` at wall reading 0. -/
def mockAt1000 : RealTimeProvider := initialProvider.SetMockTime ⟨1000, TZ.utc⟩ 0

/-- Provider state after `SetMockTime(0)` at wall reading 0. -/
def c6mock : RealTimeProvider := initialProvider.SetMockTime ⟨0, TZ.utc⟩ 0

/-- Provider state after `SetMockTime(0)` then `SetTimeScale(2)`, both at
wall reading 0: mock mode active with scale 2. -/
def mockScaled2 : RealTimeProvider :=
  { mockTime := some ⟨0, TZ.utc⟩
    mockStartTime := ⟨0, TZ.localZone⟩
    mockBaseTime := ⟨0, TZ.utc⟩
    timeScale := 2
    baseTime := ⟨0, TZ.utc⟩
    scaleStart := ⟨0, TZ.utc⟩ }

/-- Provider state after `SetTimeScale(2)` at wall reading 0 from the
initial state: plain scaled mode. -/
def scaled2 : RealTimeProvider :=
  { mockTime := none
    mockStartTime := goZeroTime
    mockBaseTime := goZeroTime
    timeScale := 2
    baseTime := ⟨0, TZ.utc⟩
    scaleStart := ⟨0, TZ.utc⟩ }

/-- An HTTP oracle whose every request fails at the transport level. -/
def failEnv : HttpEnv := fun _ => Except.error "connection refused"

/-- An HTTP oracle answering 200 with a well-formed body whose timestamp
carries a +08:00 (28800 s) numeric offset. -/
def okEnv8 : HttpEnv := fun _ =>
  Except.ok ⟨200, "200 OK", JsonBody.decoded (some ⟨0, RFCZone.offset 28800⟩)⟩

/-! Helper lemmas. -/

/-- UTC normalization is idempotent. -/
lemma toUTC_toUTC (t : GoTime) : t.toUTC.toUTC = t.toUTC := rfl

/-- Every value returned by `realTimeProvider.Now` is already normalized
to UTC. -/
lemma now_toUTC (r : RealTimeProvider) (w : ℚ) : (r.Now w).toUTC = r.Now w := by
  unfold RealTimeProvider.Now
  cases r.mockTime with
  | none =>
      by_cases h : r.timeScale ≠ 1
      · rw [if_pos h]; rfl
      · rw [if_neg h]; rfl
  | some a => exact toUTC_toUTC _

/-- A successful `SetTimeScale` call requires a positive scale and installs
exactly that scale. -/
lemma setTimeScale_ok_pos {r r' : RealTimeProvider} {s w : ℚ}
    (h : r.SetTimeScale s w = Except.ok r') : 0 < s ∧ r'.timeScale = s := by
  unfold RealTimeProvider.SetTimeScale at h
  by_cases hs : s ≤ 0
  · rw [if_pos hs] at h
    exact absurd h (by simp)
  · rw [if_neg hs] at h
    refine ⟨lt_of_not_le hs, ?_⟩
    have h2 := Except.ok.inj h
    subst h2
    rfl

/-- Explicit form of the state produced by a successful `SetTimeScale`. -/
lemma setTimeScale_ok_form (r : RealTimeProvider) (s w : ℚ) (hs : ¬ s ≤ 0) :
    r.SetTimeScale s w = Except.ok
      { mockTime := r.mockTime
        mockStartTime := if r.mockTime.isSome then timeNow w else r.mockStartTime
        mockBaseTime :=
          if r.mockTime.isSome then r.mockBaseTime.add (timeSince w r.mockStartTime)
          else r.mockBaseTime
        timeScale := s
        baseTime := r.Now w
        scaleStart := (timeNow w).toUTC } := by
  unfold RealTimeProvider.SetTimeScale
  rw [if_neg hs]
  cases hm : r.mockTime <;> simp [hm]

/-- Claim C2: for every scale value `s ≤ 0`, `SetTimeScale(s)` signals a
fatal configuration error (the Go `panic`, modelled as `Except.error`)
before any field is assigned, so no state is produced and nothing is
clamped; and along every sequence of operations from the initial state
(`scale = 1.0`) the invariant `scale > 0` holds. -/
theorem c2_invalid_scale_rejected_and_invariant :
    (∀ (r : RealTimeProvider) (s w : ℚ), s ≤ 0 →
        r.SetTimeScale s w = Except.error "Time scale must be positive") ∧
    (∀ r : RealTimeProvider, Reachable r → 0 < r.timeScale) := by
  refine ⟨?_, ?_⟩
  · intro r s w hs
    unfold RealTimeProvider.SetTimeScale
    rw [if_pos hs]
  · intro r h
    induction h with
    | init => norm_num [initialProvider]
    | step r r' hr hstep ih =>
        cases hstep with
        | setTimeScale a s w h =>
            rcases setTimeScale_ok_pos h with ⟨h1, h2⟩
            rw [h2]; exact h1
        | clearTimeScale a w h =>
            unfold RealTimeProvider.ClearTimeScale at h
            rcases setTimeScale_ok_pos h with ⟨h1, h2⟩
            rw [h2]; exact h1
        | setMockTime t w => norm_num [RealTimeProvider.SetMockTime]
        | clearMockTime => norm_num [RealTimeProvider.ClearMockTime]

/-- Witness for C2: evaluating both parts at a concrete input. -/
theorem c2_witness :
    initialProvider.SetTimeScale (-1) 0 = Except.error "Time scale must be positive" ∧
    0 < initialProvider.timeScale :=
  ⟨c2_invalid_scale_rejected_and_invariant.1 initialProvider (-1) 0 (by norm_num),
   c2_invalid_scale_rejected_and_invariant.2 initialProvider Reachable.init⟩

/-- Claim C4: for every instant `T`, every prior state and every wall
reading `w`, with zero elapsed real time after `SetMockTime(T)` the value
of `Now()` is exactly `T` normalized to UTC, and the scale has been reset
to 1.0 by the call. -/
theorem c4_mock_exactness (r : RealTimeProvider) (t : GoTime) (w : ℚ) :
    (r.SetMockTime t w).Now w = t.toUTC ∧ (r.SetMockTime t w).timeScale = 1 := by
  refine ⟨?_, rfl⟩
  simp [RealTimeProvider.SetMockTime, RealTimeProvider.Now, GoTime.toUTC, GoTime.add,
    GoTime.sub, timeSince, timeNow]

/-- Claim C10: `Until(t)` is the negation of `Since(t)` when both are
computed against the same `Now()` reading, so their sum is zero; both
normalize the argument to UTC first. -/
theorem c10_since_until (r : RealTimeProvider) (w : ℚ) (t : GoTime) :
    r.Until w t = -(r.Since w t) ∧
    r.Since w t + r.Until w t = 0 ∧
    r.Since w t = r.Since w t.toUTC ∧
    r.Until w t = r.Until w t.toUTC := by
  refine ⟨?_, ?_, rfl, rfl⟩ <;>
  · unfold RealTimeProvider.Until RealTimeProvider.Since GoTime.sub
    ring


/-- The mock state `c6mock` is reachable (one `SetMockTime` call). -/
lemma reach_c6mock : Reachable c6mock :=
  Reachable.step _ _ Reachable.init (Step.setMockTime initialProvider ⟨0, TZ.utc⟩ 0)

/-- Calling `SetTimeScale(2)` at wall reading 0 on `c6mock` yields
`mockScaled2`. -/
lemma c6mock_setTimeScale : c6mock.SetTimeScale 2 0 = Except.ok mockScaled2 := by
  norm_num [c6mock, mockScaled2, RealTimeProvider.SetTimeScale, RealTimeProvider.SetMockTime,
    RealTimeProvider.Now, initialProvider, GoTime.toUTC, GoTime.add, GoTime.sub, timeSince,
    timeNow, goZeroTime]

/-- The mock-with-scale-2 state is reachable. -/
lemma reach_mockScaled2 : Reachable mockScaled2 :=
  Reachable.step _ _ reach_c6mock (Step.setTimeScale c6mock mockScaled2 2 0 c6mock_setTimeScale)

/-- Claim C6 counterexample: in the reachable state just after
`SetMockTime(0)` (mock mode active, scale 1.0), `After(1000)` fires only
after 1000 ns of real time, not immediately — the code has no mock branch
in `After`. -/
theorem c6_counterexample :
    Reachable c6mock ∧ c6mock.mockTime.isSome = true ∧
    c6mock.After 1000 = 1000 ∧ (1000 : ℚ) ≠ 0 := by
  refine ⟨reach_c6mock, rfl, ?_, by norm_num⟩
  norm_num [c6mock, RealTimeProvider.After, RealTimeProvider.SetMockTime, initialProvider]

/-- Claim C6 amended: `After(d)` always returns a notification that fires
after `d / scale` of real time (exactly `d` when `scale == 1.0`),
regardless of whether mock mode is active; `After` never consults the
mock state. -/
theorem c6_after_scaled_ignores_mock (r : RealTimeProvider) (d : ℚ) :
    r.After d = d / r.timeScale ∧
    (∀ m : Option GoTime, RealTimeProvider.After { r with mockTime := m } d = r.After d) := by
  refine ⟨?_, fun m => rfl⟩
  rcases eq_or_ne r.timeScale 1 with h | h <;>
    simp [RealTimeProvider.After, h]

/-- Claim C7 counterexample: in the reachable state with mock mode active
and scale 2.0, `ClearMockTime()` resets the scale to 1.0 — it does alter
the scale, and ticking does not resume at the scale that was in effect. -/
theorem c7_counterexample :
    Reachable mockScaled2 ∧ mockScaled2.timeScale = 2 ∧
    mockScaled2.ClearMockTime.timeScale = 1 ∧
    mockScaled2.ClearMockTime.timeScale ≠ mockScaled2.timeScale := by
  refine ⟨reach_mockScaled2, rfl, rfl, ?_⟩
  norm_num [mockScaled2, RealTimeProvider.ClearMockTime]

/-- Claim C7 amended: `ClearMockTime()` exits mock mode (clears the mock
anchor pointer) and resets the scale to 1.0; afterwards `Now()` returns
the plain wall clock in UTC (the scaled/normal computation, trivially
anchored at the present instant). -/
theorem c7_clear_mock (r : RealTimeProvider) :
    r.ClearMockTime.mockTime = none ∧ r.ClearMockTime.timeScale = 1 ∧
    (∀ w : ℚ, r.ClearMockTime.Now w = ⟨w, TZ.utc⟩) := by
  refine ⟨rfl, rfl, fun w => ?_⟩
  simp [RealTimeProvider.ClearMockTime, RealTimeProvider.Now, timeNow, GoTime.toUTC]


/-- Value of `Now` in mock mode, in closed form. -/
lemma now_mock (r : RealTimeProvider) (w : ℚ) (a : GoTime) (hm : r.mockTime = some a) :
    r.Now w = ⟨r.mockBaseTime.instant + (w - r.mockStartTime.instant) * r.timeScale, TZ.utc⟩ := by
  unfold RealTimeProvider.Now
  rw [hm]
  rcases eq_or_ne r.timeScale 1 with h | h <;>
    simp [h, GoTime.add, GoTime.toUTC, timeSince, timeNow, GoTime.sub]

/-- Value of `Now` in scaled non-mock mode, in closed form. -/
lemma now_scaled (r : RealTimeProvider) (w : ℚ) (hm : r.mockTime = none)
    (h : r.timeScale ≠ 1) :
    r.Now w = ⟨r.baseTime.instant + (w - r.scaleStart.instant) * r.timeScale, TZ.utc⟩ := by
  unfold RealTimeProvider.Now
  rw [hm]
  simp [h, GoTime.add, GoTime.toUTC, timeSince, timeNow, GoTime.sub]

/-- Value of `Now` in plain mode: the wall clock in UTC. -/
lemma now_plain (r : RealTimeProvider) (w : ℚ) (hm : r.mockTime = none)
    (h : r.timeScale = 1) :
    r.Now w = ⟨w, TZ.utc⟩ := by
  unfold RealTimeProvider.Now
  rw [hm]
  simp [h, GoTime.toUTC, timeNow]

/-- Field-by-field description of the state after a successful
`SetTimeScale`. -/
lemma setTimeScale_fields {r r' : RealTimeProvider} {s w : ℚ}
    (hok : r.SetTimeScale s w = Except.ok r') :
    r'.mockTime = r.mockTime ∧ r'.timeScale = s ∧ r'.baseTime = r.Now w ∧
    r'.scaleStart = (timeNow w).toUTC ∧
    (r.mockTime.isSome = true →
        r'.mockBaseTime = r.mockBaseTime.add (timeSince w r.mockStartTime) ∧
        r'.mockStartTime = timeNow w) := by
  have hpos := (setTimeScale_ok_pos hok).1
  rw [setTimeScale_ok_form r s w (not_le.mpr hpos)] at hok
  have h2 := (Except.ok.inj hok).symm
  subst h2
  refine ⟨rfl, rfl, rfl, rfl, fun h => ⟨?_, ?_⟩⟩ <;> simp [h]

/-- Intermediate state for the C3 counterexample: `SetMockTime(100ns)` at
wall 0, then `SetTimeScale(2)` at wall 0. -/
def c3mid : RealTimeProvider :=
  { mockTime := some ⟨100, TZ.utc⟩
    mockStartTime := ⟨0, TZ.localZone⟩
    mockBaseTime := ⟨100, TZ.utc⟩
    timeScale := 2
    baseTime := ⟨100, TZ.utc⟩
    scaleStart := ⟨0, TZ.utc⟩ }

/-- State for the C3 counterexample: `c3mid` after `ClearMockTime()` —
mock inactive, scale 1.0, but `baseTime`/`scaleStart` left stale. -/
def c3state : RealTimeProvider :=
  { mockTime := none
    mockStartTime := ⟨0, TZ.localZone⟩
    mockBaseTime := ⟨100, TZ.utc⟩
    timeScale := 1
    baseTime := ⟨100, TZ.utc⟩
    scaleStart := ⟨0, TZ.utc⟩ }

/-- Operation chain producing `c3mid`. -/
lemma c3mid_eq :
    (initialProvider.SetMockTime ⟨100, TZ.utc⟩ 0).SetTimeScale 2 0 = Except.ok c3mid := by
  norm_num [c3mid, RealTimeProvider.SetTimeScale, RealTimeProvider.SetMockTime,
    RealTimeProvider.Now, initialProvider, GoTime.toUTC, GoTime.add, GoTime.sub, timeSince,
    timeNow, goZeroTime]

/-- The C3 counterexample state is reachable. -/
lemma reach_c3state : Reachable c3state := by
  have h1 : Reachable (initialProvider.SetMockTime ⟨100, TZ.utc⟩ 0) :=
    Reachable.step _ _ Reachable.init (Step.setMockTime _ _ _)
  have h2 : Reachable c3mid := Reachable.step _ _ h1 (Step.setTimeScale _ _ 2 0 c3mid_eq)
  have h3 : c3mid.ClearMockTime = c3state := rfl
  exact h3 ▸ Reachable.step _ _ h2 (Step.clearMockTime c3mid)

/-- Claim C3 counterexample: in the reachable state `c3state` (mock mode
inactive, scale 1.0, stale `baseTime`), `Now()` at wall reading 5 returns
the plain wall clock, not `scaleBase + (wallClockNow - scaleStart) *
scale`: the claimed formula for the non-mock case disagrees with the code
when `scale == 1.0`. -/
theorem c3_counterexample :
    Reachable c3state ∧ c3state.mockTime = none ∧ c3state.timeScale = 1 ∧
    c3state.Now 5 = ⟨5, TZ.utc⟩ ∧
    (c3state.baseTime.add ((5 - c3state.scaleStart.instant) * c3state.timeScale)).toUTC
      = ⟨105, TZ.utc⟩ ∧
    c3state.Now 5 ≠
      (c3state.baseTime.add ((5 - c3state.scaleStart.instant) * c3state.timeScale)).toUTC := by
  refine ⟨reach_c3state, rfl, rfl, ?_, ?_, ?_⟩ <;>
    norm_num [c3state, RealTimeProvider.Now, GoTime.toUTC, GoTime.add, GoTime.sub,
      timeSince, timeNow]

/-- Claim C3 amended: if mock mode is active, `Now()` returns
`mockBase + (wallClockNow - mockStart) * scale` normalized to UTC; if mock
mode is inactive and `scale ≠ 1.0`, it returns `scaleBase +
(wallClockNow - scaleStart) * scale` normalized to UTC; and if mock mode
is inactive and `scale == 1.0` it returns the plain wall clock reading in
UTC (ignoring `scaleBase`/`scaleStart`). -/
theorem c3_now_formula (r : RealTimeProvider) (w : ℚ) :
    (∀ a : GoTime, r.mockTime = some a →
        r.Now w =
          ⟨r.mockBaseTime.instant + (w - r.mockStartTime.instant) * r.timeScale, TZ.utc⟩) ∧
    (r.mockTime = none → r.timeScale ≠ 1 →
        r.Now w =
          ⟨r.baseTime.instant + (w - r.scaleStart.instant) * r.timeScale, TZ.utc⟩) ∧
    (r.mockTime = none → r.timeScale = 1 → r.Now w = ⟨w, TZ.utc⟩) := by
  exact ⟨fun a hm => now_mock r w a hm, fun hm h => now_scaled r w hm h,
    fun hm h => now_plain r w hm h⟩

/-- Witness for C3 (amended): evaluating each clause at concrete states. -/
theorem c3_witness :
    mockScaled2.Now 7 = ⟨14, TZ.utc⟩ ∧
    scaled2.Now 7 = ⟨14, TZ.utc⟩ ∧
    initialProvider.Now 7 = ⟨7, TZ.utc⟩ := by
  refine ⟨?_, ?_, ?_⟩
  · have h := (c3_now_formula mockScaled2 7).1 ⟨0, TZ.utc⟩ rfl
    rw [h]; norm_num [mockScaled2]
  · have h := (c3_now_formula scaled2 7).2.1 rfl (by norm_num [scaled2])
    rw [h]; norm_num [scaled2]
  · exact (c3_now_formula initialProvider 7).2.2 rfl rfl

/-- Calling `SetTimeScale(2)` at wall reading 0 on the initial state
yields `scaled2`. -/
lemma init_setTimeScale : initialProvider.SetTimeScale 2 0 = Except.ok scaled2 := by
  norm_num [scaled2, RealTimeProvider.SetTimeScale, RealTimeProvider.Now, initialProvider,
    GoTime.toUTC, GoTime.add, GoTime.sub, timeSince, timeNow, goZeroTime]

/-- The plain scaled state is reachable. -/
lemma reach_scaled2 : Reachable scaled2 :=
  Reachable.step _ _ Reachable.init (Step.setTimeScale _ _ 2 0 init_setTimeScale)

/-- State produced by `SetTimeScale(3)` at wall reading 10 from
`mockScaled2`: the mock anchor was rebased with the RAW elapsed real time
(10 ns), not the virtual (scaled) elapsed time (20 ns). -/
def c5after : RealTimeProvider :=
  { mockTime := some ⟨0, TZ.utc⟩
    mockStartTime := ⟨10, TZ.localZone⟩
    mockBaseTime := ⟨10, TZ.utc⟩
    timeScale := 3
    baseTime := ⟨20, TZ.utc⟩
    scaleStart := ⟨10, TZ.utc⟩ }

/-- Evaluation of the C5 transition. -/
lemma mockScaled2_set3 : mockScaled2.SetTimeScale 3 10 = Except.ok c5after := by
  norm_num [mockScaled2, c5after, RealTimeProvider.SetTimeScale, RealTimeProvider.Now,
    GoTime.toUTC, GoTime.add, GoTime.sub, timeSince, timeNow]

/-- Claim C5 counterexample: from the reachable state `mockScaled2` (mock
mode active, scale 2.0), the valid transition `SetTimeScale(3)` at wall
reading 10 makes the virtual time jump backward: `Now()` reports 20 ns
immediately before the call and 10 ns immediately after, because
`SetTimeScale` rebases the mock anchor with the raw (unscaled) elapsed
real time. -/
theorem c5_counterexample :
    Reachable mockScaled2 ∧
    mockScaled2.SetTimeScale 3 10 = Except.ok c5after ∧
    mockScaled2.Now 10 = ⟨20, TZ.utc⟩ ∧
    c5after.Now 10 = ⟨10, TZ.utc⟩ ∧
    (c5after.Now 10).instant < (mockScaled2.Now 10).instant := by
  refine ⟨reach_mockScaled2, mockScaled2_set3, ?_, ?_, ?_⟩ <;>
    norm_num [mockScaled2, c5after, RealTimeProvider.Now, GoTime.toUTC, GoTime.add,
      GoTime.sub, timeSince, timeNow]

/-- Claim C5 amended: continuity holds for `SetTimeScale(s)` when mock
mode is inactive and `s ≠ 1.0` (the `Now()` value immediately after the
call equals the value immediately before), and for any `SetTimeScale(s)`
when the prior scale is 1.0; `SetMockTime(T)` jumps exactly to `T`.  (In
the remaining cases the code is discontinuous: mock mode with a prior
scale different from 1.0 is rebased with the raw, unscaled elapsed time,
and `SetTimeScale(1.0)` from a diverged non-mock state falls back to the
plain wall clock — see the counterexample.) -/
theorem c5_continuity_cases (r r' : RealTimeProvider) (s w : ℚ) :
    (r.mockTime = none → s ≠ 1 → r.SetTimeScale s w = Except.ok r' →
        r'.Now w = r.Now w) ∧
    (r.timeScale = 1 → r.SetTimeScale s w = Except.ok r' →
        r'.Now w = r.Now w) ∧
    (∀ t : GoTime, (r.SetMockTime t w).Now w = t.toUTC) := by
  refine ⟨?_, ?_, ?_⟩
  · intro hm hs hok
    rcases setTimeScale_fields hok with ⟨hmf, hts, hbase, hstart, -⟩
    rw [now_scaled r' w (by rw [hmf, hm]) (by rw [hts]; exact hs), hbase, hstart, hts,
      ← now_toUTC r w]
    simp [GoTime.toUTC, timeNow]
  · intro h1 hok
    rcases setTimeScale_fields hok with ⟨hmf, hts, hbase, hstart, hmock⟩
    cases hm : r.mockTime with
    | none =>
        rcases eq_or_ne s 1 with h | h
        · rw [now_plain r' w (by rw [hmf, hm]) (by rw [hts]; exact h),
            now_plain r w hm h1]
        · rw [now_scaled r' w (by rw [hmf, hm]) (by rw [hts]; exact h), hbase, hstart,
            hts, ← now_toUTC r w]
          simp [GoTime.toUTC, timeNow]
    | some a =>
        rcases hmock (by rw [hm]; rfl) with ⟨hmb, hms⟩
        rw [now_mock r' w a (by rw [hmf, hm]), now_mock r w a hm, h1, hmb, hms, hts]
        simp only [GoTime.add, timeSince, timeNow, GoTime.sub, GoTime.mk.injEq]
        refine ⟨by ring, trivial⟩
  · intro t
    simp [RealTimeProvider.SetMockTime, RealTimeProvider.Now, GoTime.toUTC, GoTime.add,
      GoTime.sub, timeSince, timeNow]

/-- Witness for C5 (amended): each clause evaluated at a concrete
transition. -/
theorem c5_witness :
    scaled2.Now 0 = initialProvider.Now 0 ∧
    mockScaled2.Now 0 = c6mock.Now 0 ∧
    (initialProvider.SetMockTime ⟨7, TZ.utc⟩ 3).Now 3 = (⟨7, TZ.utc⟩ : GoTime).toUTC :=
  ⟨(c5_continuity_cases initialProvider scaled2 2 0).1 rfl (by norm_num) init_setTimeScale,
   (c5_continuity_cases c6mock mockScaled2 2 0).2.1 rfl c6mock_setTimeScale,
   (c5_continuity_cases initialProvider initialProvider 1 3).2.2 ⟨7, TZ.utc⟩⟩


/-- State after one `ClearTimeScale()` at wall reading 10 from `scaled2`:
scale back to 1.0, `baseTime` holding the prior virtual time 20 ns. -/
def c8clear1 : RealTimeProvider :=
  { mockTime := none
    mockStartTime := goZeroTime
    mockBaseTime := goZeroTime
    timeScale := 1
    baseTime := ⟨20, TZ.utc⟩
    scaleStart := ⟨10, TZ.utc⟩ }

/-- State after a second `ClearTimeScale()` at the same wall reading 10:
`baseTime` has been overwritten with the wall reading. -/
def c8clear2 : RealTimeProvider :=
  { mockTime := none
    mockStartTime := goZeroTime
    mockBaseTime := goZeroTime
    timeScale := 1
    baseTime := ⟨10, TZ.utc⟩
    scaleStart := ⟨10, TZ.utc⟩ }

/-- Evaluation of the first clear. -/
lemma scaled2_clear : scaled2.ClearTimeScale 10 = Except.ok c8clear1 := by
  norm_num [scaled2, c8clear1, RealTimeProvider.ClearTimeScale, RealTimeProvider.SetTimeScale,
    RealTimeProvider.Now, GoTime.toUTC, GoTime.add, GoTime.sub, timeSince, timeNow, goZeroTime]

/-- Evaluation of the second clear at the same wall reading. -/
lemma c8clear1_clear : c8clear1.ClearTimeScale 10 = Except.ok c8clear2 := by
  norm_num [c8clear1, c8clear2, RealTimeProvider.ClearTimeScale, RealTimeProvider.SetTimeScale,
    RealTimeProvider.Now, GoTime.toUTC, GoTime.add, GoTime.sub, timeSince, timeNow, goZeroTime]

/-- Claim C8 counterexample: two `ClearTimeScale()` calls in a row (zero
elapsed real time, both at wall reading 10) from the reachable scaled
state: the second call runs with scale already 1.0, produces no error,
but rewrites `baseTime` (20 ns becomes 10 ns), so the clock state after
the second call differs from the state after the first. -/
theorem c8_counterexample :
    Reachable scaled2 ∧
    scaled2.ClearTimeScale 10 = Except.ok c8clear1 ∧
    c8clear1.timeScale = 1 ∧
    c8clear1.ClearTimeScale 10 = Except.ok c8clear2 ∧
    c8clear2.baseTime ≠ c8clear1.baseTime ∧
    c8clear2 ≠ c8clear1 := by
  refine ⟨reach_scaled2, scaled2_clear, rfl, c8clear1_clear, ?_, ?_⟩ <;>
    norm_num [c8clear1, c8clear2]

/-- Claim C8 amended: `ClearMockTime()` twice in a row leaves the state
unchanged on the second call (exact state equality), and `ClearTimeScale()`
never produces an error; but a `ClearTimeScale()` call with the scale
already 1.0 only preserves the observable behavior of `Now()` — it still
rewrites `baseTime`/`scaleStart` (and the mock anchors in mock mode) to
the present reading, so internal fields may differ. -/
theorem c8_idempotent_clear (r r' : RealTimeProvider) (w : ℚ) :
    r.ClearMockTime.ClearMockTime = r.ClearMockTime ∧
    (∃ q : RealTimeProvider, r.ClearTimeScale w = Except.ok q) ∧
    (r.timeScale = 1 → r.ClearTimeScale w = Except.ok r' →
        ∀ u : ℚ, r'.Now u = r.Now u) := by
  refine ⟨rfl, ⟨_, setTimeScale_ok_form r 1 w (by norm_num)⟩, ?_⟩
  intro h1 hok
  unfold RealTimeProvider.ClearTimeScale at hok
  rcases setTimeScale_fields hok with ⟨hmf, hts, hbase, hstart, hmock⟩
  intro u
  cases hm : r.mockTime with
  | none =>
      rw [now_plain r' u (by rw [hmf, hm]) (by rw [hts]), now_plain r u hm h1]
  | some a =>
      rcases hmock (by rw [hm]; rfl) with ⟨hmb, hms⟩
      rw [now_mock r' u a (by rw [hmf, hm]), now_mock r u a hm, h1, hmb, hms, hts]
      simp only [GoTime.add, timeSince, timeNow, GoTime.sub, GoTime.mk.injEq]
      refine ⟨by ring, trivial⟩

/-- Witness for C8 (amended): the concrete double-clear scenarios. -/
theorem c8_witness :
    scaled2.ClearMockTime.ClearMockTime = scaled2.ClearMockTime ∧
    (∃ q : RealTimeProvider, scaled2.ClearTimeScale 10 = Except.ok q) ∧
    c8clear2.Now 99 = c8clear1.Now 99 :=
  ⟨(c8_idempotent_clear scaled2 c8clear2 10).1,
   (c8_idempotent_clear scaled2 c8clear2 10).2.1,
   (c8_idempotent_clear c8clear1 c8clear2 10).2.2 rfl c8clear1_clear 99⟩

/-- The mock state used in the C1 counterexample is reachable. -/
lemma reach_mockAt1000 : Reachable mockAt1000 :=
  Reachable.step _ _ Reachable.init (Step.setMockTime initialProvider ⟨1000, TZ.utc⟩ 0)

/-- Claim C1 counterexample: with the shared provider (the VirtualClock)
in the reachable mock state `mockAt1000`, its `Now()` at wall reading 5
is 1005 ns; but the package-level `Now()` returns the plain wall clock 5
ns in UTC both when the remote fetch fails and when remote mode is
disabled — the fallback is `time.Now().UTC()`, not `VirtualClock.Now()`,
so the provider mock/scale state does not apply. -/
theorem c1_counterexample :
    Reachable mockAt1000 ∧
    mockAt1000.Now 5 = ⟨1005, TZ.utc⟩ ∧
    (Now ⟨true, "http://x"⟩ failEnv 5).1 = ⟨5, TZ.utc⟩ ∧
    (Now ⟨false, "http://x"⟩ failEnv 5).1 = ⟨5, TZ.utc⟩ ∧
    (Now ⟨true, "http://x"⟩ failEnv 5).1 ≠ mockAt1000.Now 5 ∧
    (Now ⟨false, "http://x"⟩ failEnv 5).1 ≠ mockAt1000.Now 5 := by
  refine ⟨reach_mockAt1000, ?_, ?_, ?_, ?_, ?_⟩ <;>
    norm_num [mockAt1000, RealTimeProvider.Now, RealTimeProvider.SetMockTime,
      initialProvider, Now, getServerTime, failEnv, timeNow, GoTime.toUTC, GoTime.add,
      GoTime.sub, timeSince]

/-- Claim C1 amended: when remote mode is enabled and the remote fetch
fails for any reason, the package-level `Now()` logs the failure and
returns the plain local wall clock in UTC (`time.Now().UTC()`), not the
shared provider clock — mock/scale state does not apply to the fallback;
when remote mode is disabled it likewise returns the plain local wall
clock in UTC; on fetch success it returns the fetched value; in no case
does a remote-fetch failure propagate as a failure of `Now()` (the
function is total and returns a time in every case). -/
theorem c1_fallback_is_wall_clock (cfg : TimeSourceConfig) (env : HttpEnv) (w : ℚ) :
    (∀ e : GoError, cfg.useServerTime = true →
        (getServerTime env cfg.serverURL).1 = Except.error e →
        Now cfg env w = (⟨w, TZ.utc⟩,
          ["Error getting server time, falling back to local UTC time"])) ∧
    (cfg.useServerTime = false → Now cfg env w = (⟨w, TZ.utc⟩, [])) ∧
    (∀ t : GoTime, cfg.useServerTime = true →
        (getServerTime env cfg.serverURL).1 = Except.ok t →
        Now cfg env w = (t, [])) := by
  refine ⟨?_, ?_, ?_⟩
  · intro e hu he
    unfold Now
    rw [hu, he]
    simp [timeNow, GoTime.toUTC]
  · intro hu
    unfold Now
    rw [hu]
    simp [timeNow, GoTime.toUTC]
  · intro t hu ht
    unfold Now
    rw [hu, ht]
    simp

/-- Witness for C1 (amended): all three clauses at concrete
configurations and oracles. -/
theorem c1_witness :
    Now ⟨true, "http://x"⟩ failEnv 5 =
      (⟨5, TZ.utc⟩, ["Error getting server time, falling back to local UTC time"]) ∧
    Now ⟨false, "http://x"⟩ failEnv 5 = (⟨5, TZ.utc⟩, []) ∧
    Now ⟨true, "http://s"⟩ okEnv8 5 = (parseRFC3339Nano ⟨0, RFCZone.offset 28800⟩, []) :=
  ⟨(c1_fallback_is_wall_clock ⟨true, "http://x"⟩ failEnv 5).1
      (GoError.network "connection refused") rfl rfl,
   (c1_fallback_is_wall_clock ⟨false, "http://x"⟩ failEnv 5).2.1 rfl,
   (c1_fallback_is_wall_clock ⟨true, "http://s"⟩ okEnv8 5).2.2
      (parseRFC3339Nano ⟨0, RFCZone.offset 28800⟩) rfl rfl⟩

/-- An HTTP oracle answering with a non-200 status. -/
def env500 : HttpEnv := fun _ =>
  Except.ok ⟨500, "500 Internal Server Error", JsonBody.decoded none⟩

/-- An HTTP oracle answering 200 with a malformed JSON body. -/
def envBadJson : HttpEnv := fun _ => Except.ok ⟨200, "200 OK", JsonBody.malformed⟩

/-- An HTTP oracle answering 200 with well-formed JSON whose timestamp
fails RFC3339Nano parsing. -/
def envBadStamp : HttpEnv := fun _ => Except.ok ⟨200, "200 OK", JsonBody.decoded none⟩

/-- Claim C9 counterexample: on a 200 response whose timestamp carries a
+08:00 offset, `getServerTime` succeeds and returns the parsed instant
with the timestamp's own fixed zone — it is not normalized to UTC (no
`.UTC()` is applied on the success path). -/
theorem c9_counterexample :
    (getServerTime okEnv8 "http://s").1 =
      Except.ok ⟨-28800000000000, TZ.fixed 28800⟩ ∧
    (⟨-28800000000000, TZ.fixed 28800⟩ : GoTime).zone ≠ TZ.utc ∧
    (⟨-28800000000000, TZ.fixed 28800⟩ : GoTime) ≠
      (⟨-28800000000000, TZ.fixed 28800⟩ : GoTime).toUTC := by
  refine ⟨?_, by simp, by simp [GoTime.toUTC]⟩
  norm_num [getServerTime, okEnv8, parseRFC3339Nano, RFCZone.offsetSeconds]

/-- Claim C9 amended: `Fetch` issues exactly one GET request, to
`url + "/time"`; it returns an error on transport failure, on any non-200
status, on a malformed JSON body, and on a timestamp that fails
RFC3339Nano parsing; on success it returns the instant exactly as parsed
(`time.Parse`'s result, carrying the timestamp's own zone), without UTC
normalization; it performs no retry and no caching (the request list is
always the single URL). -/
theorem c9_fetch_contract (env : HttpEnv) (url : String) :
    (getServerTime env url).2 = [url ++ "/time"] ∧
    (∀ e : String, env (url ++ "/time") = Except.error e →
        (getServerTime env url).1 = Except.error (GoError.network e)) ∧
    (∀ resp : HttpResponse, env (url ++ "/time") = Except.ok resp → resp.statusCode ≠ 200 →
        (getServerTime env url).1 = Except.error (GoError.protocol resp.status)) ∧
    (∀ resp : HttpResponse, env (url ++ "/time") = Except.ok resp → resp.statusCode = 200 →
        resp.body = JsonBody.malformed →
        (getServerTime env url).1 = Except.error GoError.jsonDecode) ∧
    (∀ resp : HttpResponse, env (url ++ "/time") = Except.ok resp → resp.statusCode = 200 →
        resp.body = JsonBody.decoded none →
        (getServerTime env url).1 = Except.error GoError.timeParse) ∧
    (∀ (resp : HttpResponse) (stamp : RFC3339Stamp),
        env (url ++ "/time") = Except.ok resp → resp.statusCode = 200 →
        resp.body = JsonBody.decoded (some stamp) →
        (getServerTime env url).1 = Except.ok (parseRFC3339Nano stamp)) := by
  refine ⟨rfl, ?_, ?_, ?_, ?_, ?_⟩
  · intro e he
    simp [getServerTime, he]
  · intro resp hr hs
    simp [getServerTime, hr, hs]
  · intro resp hr hs hb
    simp [getServerTime, hr, hs, hb]
  · intro resp hr hs hb
    simp [getServerTime, hr, hs, hb]
  · intro resp stamp hr hs hb
    simp [getServerTime, hr, hs, hb]

/-- Witness for C9 (amended): every branch of the fetch evaluated on a
concrete oracle. -/
theorem c9_witness :
    (getServerTime failEnv "http://s").2 = ["http://s/time"] ∧
    (getServerTime failEnv "http://s").1 =
      Except.error (GoError.network "connection refused") ∧
    (getServerTime env500 "http://s").1 =
      Except.error (GoError.protocol "500 Internal Server Error") ∧
    (getServerTime envBadJson "http://s").1 = Except.error GoError.jsonDecode ∧
    (getServerTime envBadStamp "http://s").1 = Except.error GoError.timeParse ∧
    (getServerTime okEnv8 "http://s").1 =
      Except.ok (parseRFC3339Nano ⟨0, RFCZone.offset 28800⟩) :=
  ⟨(c9_fetch_contract failEnv "http://s").1,
   (c9_fetch_contract failEnv "http://s").2.1 "connection refused" rfl,
   (c9_fetch_contract env500 "http://s").2.2.1 _ rfl (by norm_num),
   (c9_fetch_contract envBadJson "http://s").2.2.2.1 _ rfl rfl rfl,
   (c9_fetch_contract envBadStamp "http://s").2.2.2.2.1 _ rfl rfl rfl,
   (c9_fetch_contract okEnv8 "http://s").2.2.2.2.2 _ _ rfl rfl rfl⟩

end TimeManagement
